import Mathlib

set_option linter.unusedVariables false

/-!
Shallow embedding of `src/download_missing.py` (LADDAS-Data-Integrity):
the artifact verifier `_file_ok`, the retry controller `_download_with_retries`,
and the per-record / per-date reconciliation loop of `download_product_file`,
together with theorems settling the spec claims about them.

Modelling conventions:
* A local file is abstracted as a `FileView`: whether `path.exists()` holds,
  the result of `path.stat().st_size` (`none` models a raised `OSError`), and
  the result of `md5sum(path)` (`none` models an I/O exception while hashing;
  `some d` is the hex digest, which Python's `hashlib.md5(...).hexdigest()`
  always renders in lowercase).
* The filesystem is a total map `String → FileView` from path strings.
* One `wget` invocation (`_run_wget`) is abstracted as a `FetchStep`: the
  process return code together with the `FileView` the destination path holds
  after the invocation.  A record's sequence of attempts is a function
  `Nat → FetchStep` (attempt index ↦ result), standing for the behaviour of
  the remote source for that record's URL; "no remote changes" between two
  runs means the same function.
* Python `str.strip()` and `str.lower()` are modelled by the executable
  `pyStrip` / `pyLower` below (whitespace trimming at both ends, per-character
  lowercasing — the same semantics as `String.trim` / `String.toLower`, written
  over the character list so the kernel can evaluate them).
-/

namespace LADDAS

/-- Model of Python `str.strip()`: drop whitespace from both ends. -/
def pyStrip (s : String) : String :=
  ⟨((s.data.dropWhile Char.isWhitespace).reverse.dropWhile Char.isWhitespace).reverse⟩

/-- Model of Python `str.lower()`: lowercase every character. -/
def pyLower (s : String) : String :=
  ⟨s.data.map Char.toLower⟩

/-- Abstract view of one local path, see module docstring. -/
structure FileView where
  onDisk : Bool
  sizeResult : Option Int
  hashResult : Option String
deriving DecidableEq

/-- Embedding of `_is_nan` restricted to string inputs: `pd.isna` is `False`
on a `str`, so the test is `x.strip().lower() in ("nan", "none", "")`. -/
def isNanStr (s : String) : Bool :=
  let t := pyLower (pyStrip s)
  t = "nan" || t = "none" || t = ""

/-- Truthiness-plus-`_is_nan` guard of `_file_ok` on `expected_md5`:
`if expected_md5 and not _is_nan(expected_md5)`.  `None` and the empty string
are falsy; `_is_nan` additionally rejects whitespace-only, `nan`, `none`. -/
def hashPresent : Option String → Bool
  | none => false
  | some s => !(s = "") && !isNanStr s

/-- Embedding of the hash comparison `md5sum(str(path)) == str(expected_md5).strip()`
with the surrounding `try/except` (an exception while hashing returns `False`).
Note the comparison is exact: the computed digest is NOT lowercased and the
expected value is only stripped, not lowercased. -/
def hashBranch (f : FileView) (expected : String) : Bool :=
  match f.hashResult with
  | some digest => digest = pyStrip expected
  | none => false

/-- Embedding of the size block of `_file_ok`:
`if expected_size is not None and not _is_nan(expected_size): try return
path.stat().st_size == int(expected_size) except return False` then
`return True` (existence as a last resort).  `_is_nan` on an `int` is `False`,
so presence of the size is just `isSome`. -/
def sizeBranch (f : FileView) (expectedSize : Option Int) : Bool :=
  match expectedSize with
  | some n =>
    match f.sizeResult with
    | some m => m = n
    | none => false
  | none => true

/-- Embedding of `_file_ok(path, expected_size, expected_md5, verify)`.
The Python function is a sequence of `if` blocks on the `verify` string:

* nonexistent path ⇒ `False`;
* `"none"` ⇒ `True`;
* `"md5"` with a usable `expected_md5` ⇒ hash comparison; with no usable
  hash the code reassigns `verify = "size"`, so control reaches the size
  block, modelled here by calling `sizeBranch` directly;
* `"auto"` with a usable `expected_md5` ⇒ hash comparison; with no usable
  hash the code comments `# else fall through to size` but never reassigns
  `verify`, so the later `if verify == "size"` test is false and control
  reaches the final `return False` — hence `else false` here;
* `"size"` ⇒ the size block;
* any other mode ⇒ the final `return False`. -/
def fileOk (f : FileView) (expectedSize : Option Int) (expectedMd5 : Option String)
    (verify : String) : Bool :=
  if f.onDisk = false then false
  else if verify = "none" then true
  else if verify = "md5" then
    if hashPresent expectedMd5 then hashBranch f (expectedMd5.getD "")
    else sizeBranch f expectedSize
  else if verify = "auto" then
    if hashPresent expectedMd5 then hashBranch f (expectedMd5.getD "")
    else false
  else if verify = "size" then sizeBranch f expectedSize
  else false

/-- Result of one `_run_wget(url, dest, token)` call: the subprocess return
code and the `FileView` the destination path holds afterwards (wget with `-O`
creates/overwrites the destination). -/
structure FetchStep where
  rc : Int
  result : FileView
deriving DecidableEq

/-- Observable result of `_download_with_retries`: the boolean it returns,
the number of `_run_wget` invocations performed, the number of `_file_ok`
invocations performed inside the loop, and the state the destination file is
left in (the code never deletes a bad last attempt). -/
structure RetryResult where
  success : Bool
  attempts : Nat
  verifierRuns : Nat
  finalFile : FileView
deriving DecidableEq

/-- Embedding of the loop body of `_download_with_retries`:

```
for attempt in range(retries + 1):
    rc = _run_wget(url, dest, token)
    if rc == 0 and _file_ok(dest, expected_size, expected_md5, verify=verify):
        return True
return False
```

`fuel` is the number of remaining iterations, `i` the index of the next
attempt (also the count of attempts performed so far, since attempts start at
0), `last` the destination's current file state.  Python's `and`
short-circuits, so `_file_ok` runs only when `rc == 0` — hence the nested
`if` and the `verifierRuns` accounting. -/
def runRetries (steps : Nat → FetchStep) (eS : Option Int) (eM : Option String)
    (v : String) : Nat → Nat → FileView → RetryResult
  | 0, i, last => ⟨false, i, 0, last⟩
  | fuel + 1, i, _ =>
    if (steps i).rc = 0 then
      if fileOk (steps i).result eS eM v then ⟨true, i + 1, 1, (steps i).result⟩
      else
        ⟨(runRetries steps eS eM v fuel (i + 1) (steps i).result).success,
         (runRetries steps eS eM v fuel (i + 1) (steps i).result).attempts,
         (runRetries steps eS eM v fuel (i + 1) (steps i).result).verifierRuns + 1,
         (runRetries steps eS eM v fuel (i + 1) (steps i).result).finalFile⟩
    else runRetries steps eS eM v fuel (i + 1) (steps i).result

/-- Embedding of `_download_with_retries(url, dest, token, expected_size,
expected_md5, verify, retries)`: `retries + 1` loop iterations starting at
attempt 0.  `initial` is the destination's file state before the first
attempt (it is always overwritten, since at least one attempt runs). -/
def downloadWithRetries (steps : Nat → FetchStep) (eS : Option Int)
    (eM : Option String) (v : String) (retries : Nat) (initial : FileView) : RetryResult :=
  runRetries steps eS eM v (retries + 1) 0 initial

/-- Default of the `retries` parameter of `_download_with_retries`. -/
def defaultRetries : Nat := 2

/-- Success condition of attempt `i` in `_download_with_retries`:
`rc == 0 and _file_ok(dest, ...)`. -/
def goodAttempt (steps : Nat → FetchStep) (eS : Option Int) (eM : Option String)
    (v : String) (i : Nat) : Bool :=
  (steps i).rc = 0 && fileOk (steps i).result eS eM v

/-- Count of indices `j` in `[i, i + n)` with `(steps j).rc = 0`; used to state
how often the loop of `_download_with_retries` invokes `_file_ok`. -/
def countZeroRc (steps : Nat → FetchStep) : Nat → Nat → Nat
  | _, 0 => 0
  | i, n + 1 => (if (steps i).rc = 0 then 1 else 0) + countZeroRc steps (i + 1) n

/-- One inventory row as `download_product_file` extracts it:
`fname`, `expected_size` (already `int`-converted or `None`),
`expected_md5` (already `None`-normalised and stripped), and `url`. -/
structure RecordMeta where
  name : String
  expectedSize : Option Int
  expectedMd5 : Option String
  url : String
deriving DecidableEq

/-- One record of a day's inventory together with its two relevant paths —
`check_path = data_dir / fname` (canonical root) and `dest = download_dir /
fname` (staging root) — and the behaviour of `_run_wget` for its URL. -/
structure RecordInput where
  meta : RecordMeta
  canonicalPath : String
  stagingPath : String
  steps : Nat → FetchStep

/-- Branch labels for the per-record decision of `download_product_file`.
The code has no explicit outcome value; these name its four control-flow
branches (the spec's taxonomy minus `Unfetchable`, for which the code has no
branch: a blank URL takes the download branch like any other URL). -/
inductive Outcome where
  | alreadyValidCanonical
  | alreadyValidStaging
  | downloadedOK
  | failedAfterRetries
deriving DecidableEq

/-- Embedding of the per-record body of the loop in `download_product_file`
(lines 218–252): check `check_path` under the canonical root first, then
`dest` under the staging root, else call `_download_with_retries` on `dest`.
Returns the branch taken, the number of `_run_wget` invocations, and the
filesystem after the record (a download overwrites the staging path only). -/
def processRecordFS (fs : String → FileView) (r : RecordInput) (verify : String)
    (retries : Nat) : Outcome × Nat × (String → FileView) :=
  if fileOk (fs r.canonicalPath) r.meta.expectedSize r.meta.expectedMd5 verify then
    (Outcome.alreadyValidCanonical, 0, fs)
  else if fileOk (fs r.stagingPath) r.meta.expectedSize r.meta.expectedMd5 verify then
    (Outcome.alreadyValidStaging, 0, fs)
  else
    ((if (downloadWithRetries r.steps r.meta.expectedSize r.meta.expectedMd5 verify retries
          (fs r.stagingPath)).success
      then Outcome.downloadedOK else Outcome.failedAfterRetries),
     (downloadWithRetries r.steps r.meta.expectedSize r.meta.expectedMd5 verify retries
       (fs r.stagingPath)).attempts,
     fun p => if p = r.stagingPath then
        (downloadWithRetries r.steps r.meta.expectedSize r.meta.expectedMd5 verify retries
          (fs r.stagingPath)).finalFile
      else fs p)

/-- Path appended to the `results` list for each branch of the record loop:
`check_path` when the canonical copy is valid, `dest` when the staging copy is
valid or the download succeeded, nothing on failure. -/
def recordResultPaths (r : RecordInput) : Outcome → List String
  | Outcome.alreadyValidCanonical => [r.canonicalPath]
  | Outcome.alreadyValidStaging => [r.stagingPath]
  | Outcome.downloadedOK => [r.stagingPath]
  | Outcome.failedAfterRetries => []

/-- Embedding of the `for _, row in df.iterrows()` loop over one day's
inventory: records processed in order, the filesystem threaded through. -/
def processDay (verify : String) (retries : Nat) :
    (String → FileView) → List RecordInput → (String → FileView) × List Outcome × List String
  | fs, [] => (fs, [], [])
  | fs, r :: rest =>
    ((processDay verify retries (processRecordFS fs r verify retries).2.2 rest).1,
     (processRecordFS fs r verify retries).1 ::
       (processDay verify retries (processRecordFS fs r verify retries).2.2 rest).2.1,
     recordResultPaths r (processRecordFS fs r verify retries).1 ++
       (processDay verify retries (processRecordFS fs r verify retries).2.2 rest).2.2)

/-- One calendar day as the date loop of `download_product_file` sees it:
`none` models a day whose inventory CSV is missing, unreadable, or lacking a
required column (the code logs and `continue`s to the next date); `some rs`
is a loaded inventory. -/
structure DayInput where
  inventory : Option (List RecordInput)

/-- Embedding of the `while dt <= end` date loop: skipped days contribute an
empty outcome list, processed days contribute their outcomes, and the
`results` paths accumulate across days in order. -/
def runDays (verify : String) (retries : Nat) :
    (String → FileView) → List DayInput → (String → FileView) × List (List Outcome) × List String
  | fs, [] => (fs, [], [])
  | fs, d :: rest =>
    match d.inventory with
    | none =>
      ((runDays verify retries fs rest).1,
       [] :: (runDays verify retries fs rest).2.1,
       (runDays verify retries fs rest).2.2)
    | some records =>
      ((runDays verify retries (processDay verify retries fs records).1 rest).1,
       (processDay verify retries fs records).2.1 ::
         (runDays verify retries (processDay verify retries fs records).1 rest).2.1,
       (processDay verify retries fs records).2.2 ++
         (runDays verify retries (processDay verify retries fs records).1 rest).2.2)

/-- Embedding of `token = token or os.getenv("NASA_EARTHDATA_TOKEN")`:
Python `or` takes the right operand when the left is the empty string, and an
unset environment variable is modelled by `none` (`getD ""` makes both
"unset" and "set to empty" falsy, as in the code). -/
def effectiveToken (tokenArg : String) (envToken : Option String) : String :=
  if tokenArg = "" then envToken.getD "" else tokenArg

/-- Message of the `RuntimeError` raised by `download_product_file` when no
token is available. -/
def noTokenMsg : String :=
  "No NASA EARTHDATA token provided. Set NASA_EARTHDATA_TOKEN or pass token=..."

/-- Embedding of `download_product_file`: the token check happens before any
date is touched (a raised `RuntimeError` is `Except.error`); on success the
date loop runs.  `product` only determines file paths in the code and is
never validated; paths are abstracted into `DayInput`/`RecordInput`, so the
parameter is carried but unused.  The code's return value is the `results`
path list — the third component of the `ok` payload; the first two (final
filesystem, per-day outcomes) are the observables of the run. -/
def downloadProductFile (product : String) (tokenArg : String) (envToken : Option String)
    (verify : String) (retries : Nat) (fs : String → FileView) (days : List DayInput) :
    Except String ((String → FileView) × List (List Outcome) × List String) :=
  if effectiveToken tokenArg envToken = "" then Except.error noTokenMsg
  else Except.ok (runDays verify retries fs days)

/-- Per-day outcome lists of a run, `none` on a raised configuration error. -/
def runOutcomes (r : Except String ((String → FileView) × List (List Outcome) × List String)) :
    Option (List (List Outcome)) :=
  match r with
  | Except.ok x => some x.2.1
  | Except.error _ => none

/-- The `results` list of a run (the code's return value), `none` on error. -/
def runResults (r : Except String ((String → FileView) × List (List Outcome) × List String)) :
    Option (List String) :=
  match r with
  | Except.ok x => some x.2.2
  | Except.error _ => none

/-- Exit status of the `__main__` block: an uncaught `RuntimeError` from the
missing-token check exits non-zero (1); otherwise the script prints a count
and exits 0 — nothing inspects the outcomes. -/
def mainExitCode (product : String) (tokenArg : String) (envToken : Option String)
    (verify : String) (retries : Nat) (fs : String → FileView) (days : List DayInput) : Nat :=
  match downloadProductFile product tokenArg envToken verify retries fs days with
  | Except.ok _ => 0
  | Except.error _ => 1

/-- Spec-side hash acceptance for claim C4 only, following the words of
section 4.2 of the spec ("compute the local file's content hash and compare
case-insensitively after trimming whitespace"); compared against the code's
`hashBranch`, which never lowercases. -/
def specHashMatchCI (computed expected : String) : Bool :=
  pyLower computed = pyLower (pyStrip expected)

/-! Concrete fixtures used by witnesses and counterexamples. -/

/-- A path with no file behind it. -/
def fvMissing : FileView := ⟨false, none, none⟩

/-- An existing 100-byte file whose md5 digest is `0123abcd` (digests are
lowercase hex by construction of `hexdigest()`). -/
def fvGood : FileView := ⟨true, some 100, some "0123abcd"⟩

/-- A record with size, hash and URL all present. -/
def metaGood : RecordMeta := ⟨"A.001.nc", some 100, some "0123abcd", "http://x/A.001.nc"⟩

/-- A record whose `downloadsLink` cell is blank. -/
def metaBlankUrl : RecordMeta := ⟨"A.001.nc", some 100, none, ""⟩

/-- A record with a URL and a size but no hash. -/
def metaNoHash : RecordMeta := ⟨"A.001.nc", some 100, none, "http://x/A.001.nc"⟩

/-- A remote that always fails: every `wget` exits 1 and leaves nothing. -/
def stepsAlwaysFail : Nat → FetchStep := fun _ => ⟨1, fvMissing⟩

/-- A remote whose `wget` exits 1 yet leaves a perfectly good file behind. -/
def stepsRcFailGoodFile : Nat → FetchStep := fun _ => ⟨1, fvGood⟩

/-- A remote that succeeds immediately, writing a good file. -/
def stepsOkGoodFile : Nat → FetchStep := fun _ => ⟨0, fvGood⟩

/-- An empty filesystem. -/
def fsEmpty : String → FileView := fun _ => fvMissing

/-- A filesystem holding a good copy at the canonical path `can/A` only. -/
def fsCanGood : String → FileView := fun p => if p = "can/A" then fvGood else fvMissing

/-- Record input whose canonical copy is valid. -/
def rGood : RecordInput := ⟨metaGood, "can/A", "stg/A", stepsAlwaysFail⟩

/-- Record input with a blank URL, valid nowhere, remote always failing. -/
def rBlank : RecordInput := ⟨metaBlankUrl, "can/A", "stg/A", stepsAlwaysFail⟩

/-- Record input valid nowhere whose download succeeds at once. -/
def rFetchOk : RecordInput := ⟨metaNoHash, "can/A", "stg/A", stepsOkGoodFile⟩

/-- Record input valid nowhere whose remote always fails. -/
def rFailing : RecordInput := ⟨metaNoHash, "can/A", "stg/A", stepsAlwaysFail⟩

end LADDAS

namespace LADDAS

/-- The attempt counter of the retry loop never moves backwards: starting at
attempt index `i`, the reported attempt count is at least `i`. -/
theorem runRetries_attempts_ge (steps : Nat → FetchStep) (eS : Option Int)
    (eM : Option String) (v : String) :
    ∀ (fuel i : Nat) (last : FileView),
      i ≤ (runRetries steps eS eM v fuel i last).attempts := by
  intro fuel
  induction fuel with
  | zero => intro i last; simp [runRetries]
  | succ n ih =>
    intro i last
    simp only [runRetries]
    by_cases hrc : (steps i).rc = 0
    · by_cases hok : fileOk (steps i).result eS eM v = true
      · simp [hrc, hok]
      · simp only [if_pos hrc, Bool.not_eq_true] at hok ⊢
        simp only [hok, Bool.false_eq_true, if_false]
        exact le_trans (Nat.le_succ i) (ih (i + 1) (steps i).result)
    · simp only [if_neg hrc]
      exact le_trans (Nat.le_succ i) (ih (i + 1) (steps i).result)

/-- If every attempt in an index window fails the `rc == 0 and _file_ok(...)`
test, the loop exhausts the window: it returns `False` after performing every
remaining attempt. -/
theorem runRetries_all_fail (steps : Nat → FetchStep) (eS : Option Int)
    (eM : Option String) (v : String) :
    ∀ (fuel i : Nat) (last : FileView),
      (∀ j, i ≤ j → j < i + fuel → goodAttempt steps eS eM v j = false) →
      (runRetries steps eS eM v fuel i last).success = false ∧
      (runRetries steps eS eM v fuel i last).attempts = i + fuel := by
  intro fuel
  induction fuel with
  | zero => intro i last _; simp [runRetries]
  | succ n ih =>
    intro i last h
    have hi : goodAttempt steps eS eM v i = false := h i (le_refl i) (by omega)
    have hrest : ∀ j, i + 1 ≤ j → j < (i + 1) + n → goodAttempt steps eS eM v j = false :=
      fun j h1 h2 => h j (by omega) (by omega)
    simp only [runRetries]
    by_cases hrc : (steps i).rc = 0
    · have hok : fileOk (steps i).result eS eM v = false := by
        simpa [goodAttempt, hrc] using hi
      have := ih (i + 1) (steps i).result hrest
      simp only [if_pos hrc, hok, Bool.false_eq_true, if_false]
      exact ⟨this.1, by omega⟩
    · have := ih (i + 1) (steps i).result hrest
      simp only [if_neg hrc]
      exact ⟨this.1, by omega⟩

/-- If attempt `i0` is the first inside the window to pass
`rc == 0 and _file_ok(...)`, the loop returns `True`, having performed exactly
the attempts up to and including `i0`, and the destination is left holding a
file that passes the verifier. -/
theorem runRetries_first_success (steps : Nat → FetchStep) (eS : Option Int)
    (eM : Option String) (v : String) :
    ∀ (fuel i i0 : Nat) (last : FileView), i ≤ i0 → i0 < i + fuel →
      goodAttempt steps eS eM v i0 = true →
      (∀ j, i ≤ j → j < i0 → goodAttempt steps eS eM v j = false) →
      (runRetries steps eS eM v fuel i last).success = true ∧
      (runRetries steps eS eM v fuel i last).attempts = i0 + 1 ∧
      fileOk (runRetries steps eS eM v fuel i last).finalFile eS eM v = true := by
  intro fuel
  induction fuel with
  | zero => intro i i0 last h1 h2 _ _; exfalso; omega
  | succ n ih =>
    intro i i0 last h1 h2 hg hprev
    rcases Nat.eq_or_lt_of_le h1 with heq | hlt
    · subst heq
      have hg2 : (steps i).rc = 0 ∧ fileOk (steps i).result eS eM v = true := by
        simpa [goodAttempt] using hg
      simp [runRetries, hg2.1, hg2.2]
    · have hgi : goodAttempt steps eS eM v i = false := hprev i (le_refl i) hlt
      have hrest := ih (i + 1) i0 (steps i).result hlt (by omega) hg
        (fun j a b => hprev j (by omega) b)
      simp only [runRetries]
      by_cases hrc : (steps i).rc = 0
      · have hok : fileOk (steps i).result eS eM v = false := by
          simpa [goodAttempt, hrc] using hgi
        simp only [if_pos hrc, hok, Bool.false_eq_true, if_false]
        exact hrest
      · simp only [if_neg hrc]
        exact hrest

/-- Whenever the retry loop reports success, the file it leaves at the
destination passes the verifier (it returned `True` right after a passing
`_file_ok`). -/
theorem runRetries_success_fileOk (steps : Nat → FetchStep) (eS : Option Int)
    (eM : Option String) (v : String) :
    ∀ (fuel i : Nat) (last : FileView),
      (runRetries steps eS eM v fuel i last).success = true →
      fileOk (runRetries steps eS eM v fuel i last).finalFile eS eM v = true := by
  intro fuel
  induction fuel with
  | zero => intro i last h; simp [runRetries] at h
  | succ n ih =>
    intro i last
    simp only [runRetries]
    by_cases hrc : (steps i).rc = 0
    · by_cases hok : fileOk (steps i).result eS eM v = true
      · simp [hrc, hok]
      · simp only [if_pos hrc, Bool.not_eq_true] at hok ⊢
        simp only [hok, Bool.false_eq_true, if_false]
        exact ih (i + 1) (steps i).result
    · simp only [if_neg hrc]
      exact ih (i + 1) (steps i).result

/-- The loop runs `_file_ok` exactly once per executed attempt whose `wget`
exit code is 0 — Python's `and` short-circuits, so failed-`rc` attempts never
reach the verifier. -/
theorem runRetries_verifier_count (steps : Nat → FetchStep) (eS : Option Int)
    (eM : Option String) (v : String) :
    ∀ (fuel i : Nat) (last : FileView),
      (runRetries steps eS eM v fuel i last).verifierRuns =
        countZeroRc steps i ((runRetries steps eS eM v fuel i last).attempts - i) := by
  intro fuel
  induction fuel with
  | zero => intro i last; simp [runRetries, countZeroRc]
  | succ n ih =>
    intro i last
    simp only [runRetries]
    by_cases hrc : (steps i).rc = 0
    · by_cases hok : fileOk (steps i).result eS eM v = true
      · have e : i + 1 - i = 1 := by omega
        simp [hrc, hok, e, countZeroRc]
      · simp only [if_pos hrc, Bool.not_eq_true] at hok ⊢
        simp only [hok, Bool.false_eq_true, if_false]
        have hge := runRetries_attempts_ge steps eS eM v n (i + 1) (steps i).result
        have e : (runRetries steps eS eM v n (i + 1) (steps i).result).attempts - i =
            ((runRetries steps eS eM v n (i + 1) (steps i).result).attempts - (i + 1)) + 1 := by
          omega
        rw [e, countZeroRc, if_pos hrc, ← ih (i + 1) (steps i).result]
        omega
    · simp only [if_neg hrc]
      have hge := runRetries_attempts_ge steps eS eM v n (i + 1) (steps i).result
      have e : (runRetries steps eS eM v n (i + 1) (steps i).result).attempts - i =
          ((runRetries steps eS eM v n (i + 1) (steps i).result).attempts - (i + 1)) + 1 := by
        omega
      rw [e, countZeroRc, if_neg hrc, ← ih (i + 1) (steps i).result]
      omega

/-- Unfolding of `fileOk` at the literal mode `"md5"`. -/
theorem fileOk_md5_eq (f : FileView) (sz : Option Int) (eM : Option String) :
    fileOk f sz eM "md5" =
      if f.onDisk = false then false
      else if hashPresent eM then hashBranch f (eM.getD "") else sizeBranch f sz := rfl

/-- Unfolding of `fileOk` at the literal mode `"auto"`. -/
theorem fileOk_auto_eq (f : FileView) (sz : Option Int) (eM : Option String) :
    fileOk f sz eM "auto" =
      if f.onDisk = false then false
      else if hashPresent eM then hashBranch f (eM.getD "") else false := rfl

/-- Unfolding of `fileOk` at the literal mode `"size"`. -/
theorem fileOk_size_eq (f : FileView) (sz : Option Int) (eM : Option String) :
    fileOk f sz eM "size" =
      if f.onDisk = false then false else sizeBranch f sz := rfl

/-- Claim C2: for every record, the canonical-root copy is checked first: a
valid canonical copy yields `AlreadyValidCanonical` with zero fetch attempts
and an unchanged filesystem (whatever the staging copy holds); otherwise a
valid staging copy yields `AlreadyValidStaging` with zero fetch attempts and
an unchanged filesystem. -/
theorem c2_theorem (fs : String → FileView) (r : RecordInput) (v : String) (retries : Nat) :
    (fileOk (fs r.canonicalPath) r.meta.expectedSize r.meta.expectedMd5 v = true →
      processRecordFS fs r v retries = (Outcome.alreadyValidCanonical, 0, fs)) ∧
    (fileOk (fs r.canonicalPath) r.meta.expectedSize r.meta.expectedMd5 v = false →
      fileOk (fs r.stagingPath) r.meta.expectedSize r.meta.expectedMd5 v = true →
      processRecordFS fs r v retries = (Outcome.alreadyValidStaging, 0, fs)) := by
  constructor
  · intro hc; simp [processRecordFS, hc]
  · intro hc hs; simp [processRecordFS, hc, hs]

/-- Witness for C2: a concrete record whose canonical copy is valid (and whose
staging copy is not) resolves as `AlreadyValidCanonical` with no fetch. -/
theorem c2_witness :
    processRecordFS fsCanGood rGood "size" 2 = (Outcome.alreadyValidCanonical, 0, fsCanGood) :=
  (c2_theorem fsCanGood rGood "size" 2).1 (by decide)

/-- Claim C3: if every attempt fails the `rc == 0 and _file_ok(...)` test, the
retry controller performs exactly `retries + 1` fetch attempts and reports
failure; with the default (2 retries) that is exactly 3 attempts. -/
theorem c3_theorem (steps : Nat → FetchStep) (eS : Option Int) (eM : Option String)
    (v : String) (retries : Nat) (initial : FileView)
    (h : ∀ j, j < retries + 1 → goodAttempt steps eS eM v j = false) :
    (downloadWithRetries steps eS eM v retries initial).success = false ∧
    (downloadWithRetries steps eS eM v retries initial).attempts = retries + 1 ∧
    (retries = defaultRetries →
      (downloadWithRetries steps eS eM v retries initial).attempts = 3) := by
  have hall := runRetries_all_fail steps eS eM v (retries + 1) 0 initial
    (fun j _ hj => h j (by omega))
  refine ⟨hall.1, by simpa [downloadWithRetries] using hall.2, ?_⟩
  intro hd
  subst hd
  simpa [downloadWithRetries, defaultRetries] using hall.2

/-- Witness for C3: against a remote that always fails, the default
configuration performs exactly 3 attempts and reports failure. -/
theorem c3_witness :
    (downloadWithRetries stepsAlwaysFail (some 100) none "size" defaultRetries
      fvMissing).success = false ∧
    (downloadWithRetries stepsAlwaysFail (some 100) none "size" defaultRetries
      fvMissing).attempts = 3 := by
  have := c3_theorem stepsAlwaysFail (some 100) none "size" defaultRetries fvMissing
    (fun j _ => rfl)
  exact ⟨this.1, this.2.2 rfl⟩

/-- Claim C7 counterexample: one fetch attempt occurs (`rc = 1`) after which
the verifier is NOT re-run (`verifierRuns = 0`), and although the freshly
written file passes verification on its own, the attempt does not count as
success — refuting "after each fetch attempt the verifier is re-run … and the
first attempt whose file passes verification counts as success". -/
theorem c7_counterexample :
    (downloadWithRetries stepsRcFailGoodFile (some 100) none "size" 0 fvMissing).attempts = 1 ∧
    (downloadWithRetries stepsRcFailGoodFile (some 100) none "size" 0 fvMissing).verifierRuns = 0 ∧
    fileOk fvGood (some 100) none "size" = true ∧
    (downloadWithRetries stepsRcFailGoodFile (some 100) none "size" 0 fvMissing).success = false := by
  decide

/-- Claim C7 (amended): the verifier is re-run exactly after each fetch
attempt whose exit code is 0 (non-zero exits skip verification, by `and`
short-circuit), and the first attempt with exit code 0 whose file passes
verification counts as success and short-circuits all remaining attempts. -/
theorem c7_theorem (steps : Nat → FetchStep) (eS : Option Int) (eM : Option String)
    (v : String) (retries : Nat) (initial : FileView) (i0 : Nat)
    (h1 : i0 < retries + 1) (h2 : goodAttempt steps eS eM v i0 = true)
    (h3 : ∀ j, j < i0 → goodAttempt steps eS eM v j = false) :
    (downloadWithRetries steps eS eM v retries initial).verifierRuns =
      countZeroRc steps 0 (downloadWithRetries steps eS eM v retries initial).attempts ∧
    (downloadWithRetries steps eS eM v retries initial).success = true ∧
    (downloadWithRetries steps eS eM v retries initial).attempts = i0 + 1 := by
  have hv := runRetries_verifier_count steps eS eM v (retries + 1) 0 initial
  have hs := runRetries_first_success steps eS eM v (retries + 1) 0 i0 initial
    (Nat.zero_le i0) (by omega) h2 (fun j _ hj => h3 j hj)
  exact ⟨by simpa [downloadWithRetries] using hv, hs.1, hs.2.1⟩

/-- Witness for C7: a remote that succeeds at once yields success after
exactly one attempt. -/
theorem c7_witness :
    (downloadWithRetries stepsOkGoodFile (some 100) none "size" defaultRetries
      fvMissing).success = true ∧
    (downloadWithRetries stepsOkGoodFile (some 100) none "size" defaultRetries
      fvMissing).attempts = 1 := by
  have := c7_theorem stepsOkGoodFile (some 100) none "size" defaultRetries fvMissing 0
    (by omega) (by decide) (fun j hj => absurd hj (Nat.not_lt_zero j))
  exact ⟨this.2.1, this.2.2⟩

/-- Claim C10: any verification-mode string outside
`auto / md5 / size / none` makes the verifier return `false` for every
existing file, whatever its size and hash. -/
theorem c10_theorem (f : FileView) (sz : Option Int) (eM : Option String) (v : String)
    (hd : f.onDisk = true) (h1 : v ≠ "auto") (h2 : v ≠ "md5") (h3 : v ≠ "size")
    (h4 : v ≠ "none") : fileOk f sz eM v = false := by
  simp [fileOk, hd, h1, h2, h3, h4]

/-- Witness for C10: a file that would pass both the hash and the size check
is still rejected under the unknown mode `sha256`. -/
theorem c10_witness : fileOk fvGood (some 100) (some "0123abcd") "sha256" = false :=
  c10_theorem fvGood (some 100) (some "0123abcd") "sha256" rfl
    (by decide) (by decide) (by decide) (by decide)

/-- Claim C4 counterexample: the spec-worded case-insensitive comparison
accepts an uppercase whitespace-padded expected hash against the computed
lowercase digest, but the code rejects it under both `md5` and `auto` — the
code's comparison is case-sensitive (only the expected value is stripped). -/
theorem c4_counterexample :
    specHashMatchCI "0a1b2c3d" " 0A1B2C3D " = true ∧
    fileOk ⟨true, some 100, some "0a1b2c3d"⟩ (some 100) (some " 0A1B2C3D ") "md5" = false ∧
    fileOk ⟨true, some 100, some "0a1b2c3d"⟩ (some 100) (some " 0A1B2C3D ") "auto" = false := by
  decide

/-- Claim C4 (amended): under `md5` and `auto` with a usable expected hash,
the verifier accepts an existing file exactly when the computed digest equals
the whitespace-stripped expected hash, compared case-sensitively; an I/O
error while hashing yields `false`. -/
theorem c4_theorem (f : FileView) (sz : Option Int) (h : String)
    (hd : f.onDisk = true) (hp : hashPresent (some h) = true) :
    (∀ d, f.hashResult = some d →
      ((fileOk f sz (some h) "md5" = true ↔ d = pyStrip h) ∧
       (fileOk f sz (some h) "auto" = true ↔ d = pyStrip h))) ∧
    (f.hashResult = none →
      fileOk f sz (some h) "md5" = false ∧ fileOk f sz (some h) "auto" = false) := by
  constructor
  · intro d hdig
    rw [fileOk_md5_eq, fileOk_auto_eq]
    simp [hd, hp, hashBranch, hdig]
  · intro hnone
    rw [fileOk_md5_eq, fileOk_auto_eq]
    simp [hd, hp, hashBranch, hnone]

/-- Witness for C4: a digest equal to the stripped expected hash is
accepted under `md5`. -/
theorem c4_witness : fileOk fvGood (some 100) (some "0123abcd") "md5" = true :=
  (((c4_theorem fvGood (some 100) "0123abcd" rfl (by decide)).1 "0123abcd" rfl).1).mpr
    (by decide)

/-- Claim C5 (the code violates it): under `auto`, an existing file with no
usable expected hash is ALWAYS rejected — the code's comment says "else fall
through to size" but `verify` is never reassigned (unlike the `md5` branch,
which does `verify = "size"`), so the later `if verify == "size"` block is
skipped and the final `return False` is reached.  A size-matching file with
no hash is rejected (first conjunct), a file with hash and size both absent
is rejected rather than accepted by existence (second conjunct), while the
same inputs under `md5` and `size` show the intended degradation working
elsewhere (remaining conjuncts). -/
theorem c5_theorem :
    fileOk ⟨true, some 100, none⟩ (some 100) none "auto" = false ∧
    fileOk ⟨true, none, none⟩ none none "auto" = false ∧
    fileOk ⟨true, some 100, none⟩ (some 100) none "md5" = true ∧
    fileOk ⟨true, some 100, none⟩ (some 100) none "size" = true ∧
    fileOk ⟨true, none, none⟩ none none "size" = true := by
  decide

/-- Claim C1 counterexample: a record whose `downloadsLink` is blank and whose
file is valid in neither root triggers 3 fetch attempts (with the default 2
retries) — not the zero attempts the claim requires: `download_product_file`
never tests the URL for blankness. -/
theorem c1_counterexample :
    rBlank.meta.url = "" ∧
    (processRecordFS fsEmpty rBlank "size" 2).2.1 = 3 := by
  decide

/-- Claim C1 (amended): a blank-URL record that is valid in neither root is
handled like any other missing record — the retry controller is invoked with
the blank URL and, when every attempt fails, performs `retries + 1` fetch
attempts and ends in the failure branch; no `Unfetchable` outcome exists in
the code. -/
theorem c1_theorem (fs : String → FileView) (r : RecordInput) (v : String) (retries : Nat)
    (hurl : r.meta.url = "")
    (hc : fileOk (fs r.canonicalPath) r.meta.expectedSize r.meta.expectedMd5 v = false)
    (hs : fileOk (fs r.stagingPath) r.meta.expectedSize r.meta.expectedMd5 v = false)
    (hfail : ∀ j, j < retries + 1 →
      goodAttempt r.steps r.meta.expectedSize r.meta.expectedMd5 v j = false) :
    (processRecordFS fs r v retries).1 = Outcome.failedAfterRetries ∧
    (processRecordFS fs r v retries).2.1 = retries + 1 := by
  have hall := runRetries_all_fail r.steps r.meta.expectedSize r.meta.expectedMd5 v
    (retries + 1) 0 (fs r.stagingPath) (fun j _ hj => hfail j (by omega))
  simp only [processRecordFS, hc, hs, Bool.false_eq_true, if_false]
  constructor
  · simp [downloadWithRetries, hall.1]
  · simpa [downloadWithRetries] using hall.2

/-- Witness for C1 (amended): the blank-URL fixture ends as
`FailedAfterRetries` after 3 attempts. -/
theorem c1_witness :
    (processRecordFS fsEmpty rBlank "size" defaultRetries).1 = Outcome.failedAfterRetries ∧
    (processRecordFS fsEmpty rBlank "size" defaultRetries).2.1 = defaultRetries + 1 := by
  exact c1_theorem fsEmpty rBlank "size" defaultRetries rfl (by decide) (by decide)
    (fun j _ => rfl)

/-- Claim C6 counterexample: with distinct canonical and staging roots, a
record downloaded on the first run (`DownloadedOK`) resolves on the second
run — same inventory, same remote, filesystem as the first run left it — as
`AlreadyValidStaging`, not `AlreadyValidCanonical` as the claim requires
(downloads are written to the staging root and never promoted). -/
theorem c6_counterexample :
    (processRecordFS fsEmpty rFetchOk "size" 2).1 = Outcome.downloadedOK ∧
    (processRecordFS ((processRecordFS fsEmpty rFetchOk "size" 2).2.2) rFetchOk
      "size" 2).1 = Outcome.alreadyValidStaging ∧
    (processRecordFS ((processRecordFS fsEmpty rFetchOk "size" 2).2.2) rFetchOk
      "size" 2).2.1 = 0 := by
  decide

/-- Claim C6 (amended): a record whose first processing does not end in
`FailedAfterRetries` is, on a second processing of the filesystem the first
left behind (same record, same remote behaviour), resolved with zero fetch
attempts and outcome `AlreadyValidCanonical` or `AlreadyValidStaging`; when
the staging root coincides with the canonical root the outcome is
`AlreadyValidCanonical`. -/
theorem c6_theorem (fs : String → FileView) (r : RecordInput) (v : String) (retries : Nat)
    (h : (processRecordFS fs r v retries).1 ≠ Outcome.failedAfterRetries) :
    (processRecordFS ((processRecordFS fs r v retries).2.2) r v retries).2.1 = 0 ∧
    ((processRecordFS ((processRecordFS fs r v retries).2.2) r v retries).1
        = Outcome.alreadyValidCanonical ∨
     (processRecordFS ((processRecordFS fs r v retries).2.2) r v retries).1
        = Outcome.alreadyValidStaging) ∧
    (r.canonicalPath = r.stagingPath →
      (processRecordFS ((processRecordFS fs r v retries).2.2) r v retries).1
        = Outcome.alreadyValidCanonical) := by
  by_cases hc : fileOk (fs r.canonicalPath) r.meta.expectedSize r.meta.expectedMd5 v = true
  · simp [processRecordFS, hc]
  · rw [Bool.not_eq_true] at hc
    by_cases hs : fileOk (fs r.stagingPath) r.meta.expectedSize r.meta.expectedMd5 v = true
    · refine ⟨by simp [processRecordFS, hc, hs], Or.inr (by simp [processRecordFS, hc, hs]), ?_⟩
      intro heq
      rw [heq] at hc
      rw [hc] at hs
      exact absurd hs (by simp)
    · rw [Bool.not_eq_true] at hs
      have hsucc : (downloadWithRetries r.steps r.meta.expectedSize r.meta.expectedMd5 v
          retries (fs r.stagingPath)).success = true := by
        by_contra hns
        rw [Bool.not_eq_true] at hns
        simp [processRecordFS, hc, hs, hns] at h
      have hfin : fileOk (downloadWithRetries r.steps r.meta.expectedSize r.meta.expectedMd5 v
          retries (fs r.stagingPath)).finalFile r.meta.expectedSize r.meta.expectedMd5 v
          = true :=
        runRetries_success_fileOk r.steps r.meta.expectedSize r.meta.expectedMd5 v
          (retries + 1) 0 (fs r.stagingPath) hsucc
      by_cases heq : r.canonicalPath = r.stagingPath
      · simp [processRecordFS, hc, hs, hsucc, heq, hfin]
      · simp [processRecordFS, hc, hs, hsucc, heq, hfin]

/-- Witness for C6 (amended): re-processing the canonical-valid fixture gives
zero fetches and `AlreadyValidCanonical`-or-`AlreadyValidStaging`. -/
theorem c6_witness :
    (processRecordFS ((processRecordFS fsCanGood rGood "size" 2).2.2) rGood "size" 2).2.1 = 0 ∧
    ((processRecordFS ((processRecordFS fsCanGood rGood "size" 2).2.2) rGood "size" 2).1
        = Outcome.alreadyValidCanonical ∨
     (processRecordFS ((processRecordFS fsCanGood rGood "size" 2).2.2) rGood "size" 2).1
        = Outcome.alreadyValidStaging) ∧
    (rGood.canonicalPath = rGood.stagingPath →
      (processRecordFS ((processRecordFS fsCanGood rGood "size" 2).2.2) rGood "size" 2).1
        = Outcome.alreadyValidCanonical) :=
  c6_theorem fsCanGood rGood "size" 2 (by decide)

/-- Claim C8 counterexample: with a credential present, an unrecognized
product does not abort — no inventory is found for the date, the day is
skipped, the run completes normally and the process exits 0. -/
theorem c8_counterexample :
    mainExitCode "NOSUCHPRODUCT" "tok" none "size" 2 fsEmpty [⟨none⟩] = 0 ∧
    runOutcomes (downloadProductFile "NOSUCHPRODUCT" "tok" none "size" 2 fsEmpty [⟨none⟩])
      = some [[]] := by
  decide

/-- Claim C8 (amended): a missing credential (empty token argument and no
usable environment token) is a fatal configuration error — the run raises
before any date is processed (the result does not depend on the day list) and
the process exits non-zero; product names are never validated. -/
theorem c8_theorem (product : String) (tokenArg : String) (envToken : Option String)
    (v : String) (retries : Nat) (fs : String → FileView) (days : List DayInput)
    (h : effectiveToken tokenArg envToken = "") :
    downloadProductFile product tokenArg envToken v retries fs days
      = Except.error noTokenMsg ∧
    mainExitCode product tokenArg envToken v retries fs days = 1 ∧
    (∀ days2, downloadProductFile product tokenArg envToken v retries fs days2 =
      downloadProductFile product tokenArg envToken v retries fs days) := by
  refine ⟨by simp [downloadProductFile, h], by simp [mainExitCode, downloadProductFile, h], ?_⟩
  intro days2
  simp [downloadProductFile, h]

/-- Witness for C8 (amended): no token argument and no environment token
raise the configuration error and exit 1. -/
theorem c8_witness :
    downloadProductFile "VJ114IMG" "" none "size" 2 fsEmpty [⟨none⟩]
      = Except.error noTokenMsg ∧
    mainExitCode "VJ114IMG" "" none "size" 2 fsEmpty [⟨none⟩] = 1 := by
  have := c8_theorem "VJ114IMG" "" none "size" 2 fsEmpty [⟨none⟩] rfl
  exact ⟨this.1, this.2.1⟩

/-- Claim C9 counterexample: a run in which the only record ends as
`FailedAfterRetries` still exits 0, and the driver's return value is the
(here empty) list of present file paths, not outcome counts — refuting
"exit status is non-zero exactly when some record ended FailedAfterRetries". -/
theorem c9_counterexample :
    runOutcomes (downloadProductFile "P" "tok" none "size" 2 fsEmpty [⟨some [rFailing]⟩])
      = some [[Outcome.failedAfterRetries]] ∧
    mainExitCode "P" "tok" none "size" 2 fsEmpty [⟨some [rFailing]⟩] = 0 ∧
    runResults (downloadProductFile "P" "tok" none "size" 2 fsEmpty [⟨some [rFailing]⟩])
      = some [] := by
  decide

/-- Claim C9 (amended): the process exit status is 1 exactly when the
credential is missing and 0 otherwise — per-record outcomes (including
`FailedAfterRetries`) never influence it, and the driver returns the flat
list of present file paths rather than outcome counts. -/
theorem c9_theorem (product : String) (tokenArg : String) (envToken : Option String)
    (v : String) (retries : Nat) (fs : String → FileView) (days : List DayInput) :
    mainExitCode product tokenArg envToken v retries fs days =
      (if effectiveToken tokenArg envToken = "" then 1 else 0) := by
  by_cases h : effectiveToken tokenArg envToken = "" <;>
    simp [mainExitCode, downloadProductFile, h]

end LADDAS
